import Mathlib

/-!
Shallow embedding of the ats-checker service (src/app.js) and proofs about
its request-handling pipeline: the JSON response normalizers with their
fallback branches, the uploaded-file cleanup lifecycle, the upload
middleware configuration, and the per-route validation and error surfacing.

External collaborators (the PDF extractor and the generative-language
client) are modelled as oracle inputs carried in each handler's
environment; the JSON value produced by a successful `JSON.parse` of the
generation result is likewise an oracle input (`Option Json`, `none`
meaning the parse threw). Everything the handlers themselves do with those
values is translated directly from src/app.js.
-/

/-- A parsed JSON value, the result of a successful `JSON.parse`.
Numbers are modelled as integers (every numeric literal the code
manipulates — scores, defaults — is integral). -/
inductive Json where
  | null : Json
  | bool : Bool → Json
  | num : Int → Json
  | str : String → Json
  | arr : List Json → Json
  | obj : List (String × Json) → Json

/-- JavaScript property access `v.k` on a parsed value: a key lookup on an
object, `undefined` (here `none`) on anything else. -/
def Json.getField : Json → String → Option Json
  | .obj fields, k => fields.lookup k
  | _, _ => none

/-- JavaScript truthiness of a possibly-absent JSON value: `undefined`,
`null`, `false`, `0` and `""` are falsy, everything else truthy. -/
def truthyOpt : Option Json → Bool
  | none => false
  | some .null => false
  | some (.bool b) => b
  | some (.num n) => n != 0
  | some (.str s) => s != ""
  | some (.arr _) => true
  | some (.obj _) => true

/-- `Array.isArray` applied to a possibly-absent JSON value. -/
def isArrayOpt : Option Json → Bool
  | some (.arr _) => true
  | _ => false

/-- JavaScript `a || b` on a possibly-absent JSON value `a`: keeps `a`
when it is truthy, otherwise yields the default `b`.
Embeds `parsedResponse.findings || []` at src/app.js:143. -/
def jsOr (v : Option Json) (d : Json) : Json :=
  if truthyOpt v then v.getD Json.null else d

/-- Numeric value of a nonempty run of decimal digits, as `parseInt`
computes it on the match of `/\d+/`. -/
def digitsToNat (ds : List Char) : Nat :=
  ds.foldl (fun n c => 10 * n + (c.toNat - 48)) 0

/-- `raw.match(/\d+/)`: the first maximal run of decimal digits in the
string, or `none` when the string has no digit (src/app.js:149). -/
def firstDigitRun (s : String) : Option (List Char) :=
  match s.toList.dropWhile (fun c => !c.isDigit) with
  | [] => none
  | c :: cs => some ((c :: cs).takeWhile Char.isDigit)

/-- The fallback score of the ATS branch: `parseInt` of the first digit
run when one exists, otherwise the literal 70 (src/app.js:149-150). -/
def fallbackScore (raw : String) : Int :=
  match firstDigitRun raw with
  | some ds => Int.ofNat (digitsToNat ds)
  | none => 70

/-- The JSON body sent by `res.json` on the ATS route. The fields hold
arbitrary parsed JSON values because the code forwards them without type
validation. -/
structure AtsResponse where
  score : Json
  findings : Json
  suggestions : Json

/-- The fallback ATS response built when parsing fails or the parsed
value lacks the required fields (src/app.js:146-157). -/
def atsFallback (raw : String) : AtsResponse :=
  { score := Json.num (fallbackScore raw)
    findings := Json.arr [Json.str "Analysis completed"]
    suggestions := Json.arr [Json.str "Consider reviewing the resume format"] }

/-- The ATS response normalizer (src/app.js:132-157): given the outcome of
`JSON.parse(responseText)` (`none` when the parse threw) and the raw
response text, either mirror the parsed fields (strict branch, when
`parsedResponse.score` is truthy and `parsedResponse.suggestions` is an
array) or build the fallback response from the raw text. Total: no parse
exception escapes. -/
def atsNormalize (parsed : Option Json) (raw : String) : AtsResponse :=
  match parsed with
  | some j =>
      if truthyOpt (j.getField "score") && isArrayOpt (j.getField "suggestions") then
        { score := (j.getField "score").getD Json.null
          findings := jsOr (j.getField "findings") (Json.arr [])
          suggestions := (j.getField "suggestions").getD Json.null }
      else
        atsFallback raw
  | none => atsFallback raw

/-- Whether a character belongs to the class `[\r\n]`. -/
def isNlChar (c : Char) : Bool :=
  c = '\r' || c = '\n'

/-- Character-list form of `raw.replace(/[\r\n]+/g, "\n")`
(src/app.js:246,325): each maximal run of carriage returns and newlines
becomes a single newline, emitted when the run ends. -/
def collapseChars : List Char → List Char
  | [] => []
  | [c] => if isNlChar c then ['\n'] else [c]
  | c1 :: c2 :: rest =>
      if isNlChar c1 then
        if isNlChar c2 then collapseChars (c2 :: rest)
        else '\n' :: collapseChars (c2 :: rest)
      else c1 :: collapseChars (c2 :: rest)

/-- `raw.replace(/[\r\n]+/g, "\n")` on strings. -/
def collapseCrLf (s : String) : String :=
  String.mk (collapseChars s.toList)

/-- The whitespace class of JavaScript's `String.prototype.trim`
(restricted to the code points the service ever meets: the ASCII
whitespace characters plus no-break space and the byte-order mark). -/
def isJsWhitespace (c : Char) : Bool :=
  c = ' ' || c = '\t' || c = '\n' || c = '\r' ||
  c.toNat = 11 || c.toNat = 12 || c.toNat = 160 || c.toNat = 65279

/-- JavaScript `s.trim()`: drop leading and trailing whitespace. -/
def jsTrim (s : String) : String :=
  String.mk (((s.toList.dropWhile isJsWhitespace).reverse.dropWhile isJsWhitespace).reverse)

/-- The cover-letter fallback text (src/app.js:246 and 325):
`responseText.replace(/[\r\n]+/g, "\n").trim()`. -/
def coverLetterFallbackText (raw : String) : String :=
  jsTrim (collapseCrLf raw)

/-- Modelled from the spec (claim wording, for refinement comparison
only): the raw text with every run of carriage returns and newlines
normalized to a single newline — worker over a flag recording whether the
previous character belonged to such a run. -/
def specNormalizeChars : Bool → List Char → List Char
  | _, [] => []
  | inRun, c :: cs =>
      if isNlChar c then
        if inRun then specNormalizeChars true cs
        else '\n' :: specNormalizeChars true cs
      else c :: specNormalizeChars false cs

/-- Modelled from the spec (claim wording): newline-run normalization of
a string, with no trimming. -/
def specNormalizeNewlines (s : String) : String :=
  String.mk (specNormalizeChars false s.toList)

/-- JSON body sent by `res.json` on the cover-letter upload route:
the strict branch sends only `coverLetter`, the fallback branch adds the
fixed `highlights` and `suggestedImprovements` arrays, and the catch
block sends an error message plus, in development mode, a stack (modelled
by the Boolean `detailsIncluded`). -/
inductive CoverBody where
  | strict (coverLetter : Json)
  | fallback (coverLetter : String) (highlights suggestedImprovements : List String)
  | err (msg : String) (detailsIncluded : Bool)

/-- The cover-letter response normalizer of the upload route
(src/app.js:227-257): strict branch when the parse succeeded and
`parsedResponse.coverLetter` is truthy, fallback otherwise. -/
def coverNormalize (parsed : Option Json) (raw : String) : CoverBody :=
  match parsed with
  | some j =>
      if truthyOpt (j.getField "coverLetter") then
        .strict ((j.getField "coverLetter").getD Json.null)
      else
        .fallback (coverLetterFallbackText raw)
          ["Letter generated based on your resume and job description"]
          ["Consider reviewing and personalizing the generated content"]
  | none =>
      .fallback (coverLetterFallbackText raw)
        ["Letter generated based on your resume and job description"]
        ["Consider reviewing and personalizing the generated content"]

/-- JSON body sent on the text-only cover-letter route. Success bodies
carry `success:true` and a `data` object; the error body carries
`success:false`, the error message and an optional `details` string. -/
inductive TextBody where
  | ok (coverLetter : Json)
  | okFallback (coverLetter : String) (highlights suggestedImprovements : List String)
  | err (msg : String) (details : Option String)

/-- The cover-letter response normalizer of the text-only route
(src/app.js:310-339). -/
def textNormalize (parsed : Option Json) (raw : String) : TextBody :=
  match parsed with
  | some j =>
      if truthyOpt (j.getField "coverLetter") then
        .ok ((j.getField "coverLetter").getD Json.null)
      else
        .okFallback (coverLetterFallbackText raw)
          ["Letter generated based on your background and job description"]
          ["Consider reviewing and personalizing the generated content"]
  | none =>
      .okFallback (coverLetterFallbackText raw)
        ["Letter generated based on your background and job description"]
        ["Consider reviewing and personalizing the generated content"]

/-- Filesystem model for the upload directory: the set of stored paths,
plus the paths whose deletion throws (permission errors and the like). -/
structure FS where
  files : List String
  failing : List String

/-- `fs.existsSync(filePath)` (src/app.js:77). -/
def existsSync (fs : FS) (p : String) : Bool :=
  fs.files.contains p

/-- `fs.unlinkSync(filePath)` (src/app.js:78): removes the file, or
throws (modelled by `Except.error`) leaving the filesystem unchanged. -/
def unlinkSync (fs : FS) (p : String) : Except Unit FS :=
  if fs.failing.contains p then .error ()
  else .ok { fs with files := fs.files.filter (· ≠ p) }

/-- `cleanupFile` (src/app.js:75-83): delete the file if it exists,
catching any deletion error and merely logging it. Returns the resulting
filesystem and whether an error was logged. -/
def cleanupFile (fs : FS) (p : String) : FS × Bool :=
  if existsSync fs p then
    match unlinkSync fs p with
    | .ok fs2 => (fs2, false)
    | .error _ => (fs, true)
  else (fs, false)

/-- `!pdfText || pdfText.trim().length === 0` (src/app.js:106): the
extracted text is `undefined` (`none`), empty, or whitespace-only. -/
def emptyText : Option String → Bool
  | none => true
  | some s => jsTrim s = ""

/-- `error.message || defaultM` in the catch blocks: the thrown message
unless it is empty. -/
def defaultMsg (m defaultM : String) : String :=
  if m = "" then defaultM else m

/-- Oracle environment of one `/api/ats-check` request: whether multer
attached a file (and its stored path), the outcome of the PDF text
extraction (`Except.error` when `extractTextFromPDF` threw), the outcome
of the generation call (`Except.error msg` for a transport or model
failure, `Except.ok` the raw response text), the outcome of
`JSON.parse` on that raw text, and whether `NODE_ENV` is development. -/
structure AtsEnv where
  file : Option String
  extractResult : Except Unit (Option String)
  genResult : Except String String
  parseResult : Option Json
  devMode : Bool

/-- JSON body sent on the ATS route: success payload or the catch
block's error payload (stack detail modelled by `detailsIncluded`). -/
inductive AtsBody where
  | ok (r : AtsResponse)
  | err (msg : String) (detailsIncluded : Bool)

/-- Observable outcome of one `/api/ats-check` request: HTTP status,
body, which collaborators were invoked, whether `cleanupFile` ran in the
`finally` block, and the final filesystem. -/
structure AtsResult where
  status : Nat
  body : AtsBody
  extractorInvoked : Bool
  genInvoked : Bool
  cleanupInvoked : Bool
  finalFs : FS

/-- The `/api/ats-check` handler (src/app.js:85-170). `filePath` is
assigned right after the file check, so every later exit path reaches
`cleanupFile` in the `finally` block. -/
def atsHandler (env : AtsEnv) (fs : FS) : AtsResult :=
  match env.file with
  | none =>
      { status := 500, body := .err "No file uploaded" env.devMode
        extractorInvoked := false, genInvoked := false
        cleanupInvoked := false, finalFs := fs }
  | some path =>
      match env.extractResult with
      | .error _ =>
          { status := 500, body := .err "Failed to extract text from PDF" env.devMode
            extractorInvoked := true, genInvoked := false
            cleanupInvoked := true, finalFs := (cleanupFile fs path).fst }
      | .ok t =>
          if emptyText t then
            { status := 500, body := .err "Could not extract text from PDF" env.devMode
              extractorInvoked := true, genInvoked := false
              cleanupInvoked := true, finalFs := (cleanupFile fs path).fst }
          else
            match env.genResult with
            | .error m =>
                { status := 500
                  body := .err (defaultMsg m "Failed to check ATS score") env.devMode
                  extractorInvoked := true, genInvoked := true
                  cleanupInvoked := true, finalFs := (cleanupFile fs path).fst }
            | .ok raw =>
                { status := 200, body := .ok (atsNormalize env.parseResult raw)
                  extractorInvoked := true, genInvoked := true
                  cleanupInvoked := true, finalFs := (cleanupFile fs path).fst }

/-- JavaScript truthiness of an optional string request field. -/
def jsTruthyStr : Option String → Bool
  | none => false
  | some s => s != ""

/-- Oracle environment of one `/api/generate-cover-letter` request. -/
structure CoverEnv where
  file : Option String
  jobDescription : Option String
  extractResult : Except Unit (Option String)
  genResult : Except String String
  parseResult : Option Json
  devMode : Bool

/-- Observable outcome of one `/api/generate-cover-letter` request. -/
structure CoverResult where
  status : Nat
  body : CoverBody
  extractorInvoked : Bool
  genInvoked : Bool
  cleanupInvoked : Bool
  finalFs : FS

/-- The `/api/generate-cover-letter` handler (src/app.js:178-272).
Faithful to the source's ordering: `filePath = req.file.path` is only
assigned AFTER the job-description check (src/app.js:190-194), so when
`jobDescription` is missing the `finally` block sees `filePath === null`
and skips `cleanupFile`, leaving the persisted upload on disk. -/
def coverHandler (env : CoverEnv) (fs : FS) : CoverResult :=
  match env.file with
  | none =>
      { status := 500, body := .err "No resume file uploaded" env.devMode
        extractorInvoked := false, genInvoked := false
        cleanupInvoked := false, finalFs := fs }
  | some path =>
      if !jsTruthyStr env.jobDescription then
        { status := 500, body := .err "No job description provided" env.devMode
          extractorInvoked := false, genInvoked := false
          cleanupInvoked := false, finalFs := fs }
      else
        match env.extractResult with
        | .error _ =>
            { status := 500, body := .err "Failed to extract text from PDF" env.devMode
              extractorInvoked := true, genInvoked := false
              cleanupInvoked := true, finalFs := (cleanupFile fs path).fst }
        | .ok t =>
            if emptyText t then
              { status := 500
                body := .err "Could not extract text from resume PDF" env.devMode
                extractorInvoked := true, genInvoked := false
                cleanupInvoked := true, finalFs := (cleanupFile fs path).fst }
            else
              match env.genResult with
              | .error m =>
                  { status := 500
                    body := .err (defaultMsg m "Failed to generate cover letter") env.devMode
                    extractorInvoked := true, genInvoked := true
                    cleanupInvoked := true, finalFs := (cleanupFile fs path).fst }
              | .ok raw =>
                  { status := 200, body := coverNormalize env.parseResult raw
                    extractorInvoked := true, genInvoked := true
                    cleanupInvoked := true, finalFs := (cleanupFile fs path).fst }

/-- Oracle environment of one `/api/generate-cover-letter/text` request. -/
structure TextEnv where
  jobDescription : Option String
  skillsExperience : Option String
  genResult : Except String String
  parseResult : Option Json
  devMode : Bool

/-- Observable outcome of one `/api/generate-cover-letter/text` request. -/
structure TextResult where
  status : Nat
  body : TextBody
  genInvoked : Bool

/-- The `/api/generate-cover-letter/text` handler (src/app.js:274-349):
early 400 return when either body field is falsy; on a generation
failure the catch block sends status 500 with the FIXED message
"Failed to generate cover letter" and puts `error.message` in `details`
only in development mode. -/
def textHandler (env : TextEnv) : TextResult :=
  if !jsTruthyStr env.jobDescription || !jsTruthyStr env.skillsExperience then
    { status := 400
      body := .err "Both job description and skills/experience are required" none
      genInvoked := false }
  else
    match env.genResult with
    | .error m =>
        { status := 500
          body := .err "Failed to generate cover letter"
            (if env.devMode then some m else none)
          genInvoked := true }
    | .ok raw =>
        { status := 200, body := textNormalize env.parseResult raw
          genInvoked := true }

/-- A file arriving at the multer middleware: its original name, the
declared MIME type, and its size in bytes. -/
structure UploadedFile where
  originalname : String
  mimetype : String
  size : Nat

/-- The multer `fileFilter` (src/app.js:47-53): accept exactly the
`application/pdf` MIME type. -/
def fileFilter (mimetype : String) : Except String Unit :=
  if mimetype = "application/pdf" then .ok () else .error "Only PDF files are allowed"

/-- The multer size ceiling (src/app.js:54-56): 5 MiB. -/
def fileSizeLimit : Nat := 5 * 1024 * 1024

/-- Modelled from the spec: multer's `upload.single("resume")` middleware
dispatch, which is library code not present in src/. It applies the
configured `fileFilter` and `fileSize` limit from src/app.js:45-57 to the
incoming file and rejects the request before the route handler runs when
either check fails; a request with no file passes through to the
handler. -/
def uploadSingle (file : Option UploadedFile) : Except String Unit :=
  match file with
  | none => .ok ()
  | some f =>
      match fileFilter f.mimetype with
      | .error e => .error e
      | .ok _ => if f.size > fileSizeLimit then .error "File too large" else .ok ()

/-- Outcome of a route guarded by the upload middleware: rejected by the
middleware (handler never runs), or handled. -/
inductive RouteResult (α : Type) where
  | rejected (msg : String)
  | handled (r : α)

/-- The composed `/api/ats-check` route: `upload.single("resume")` then
the handler (src/app.js:85). -/
def atsRoute (file : Option UploadedFile) (env : AtsEnv) (fs : FS) : RouteResult AtsResult :=
  match uploadSingle file with
  | .error e => .rejected e
  | .ok _ => .handled (atsHandler env fs)

/-- Whether the Text Extractor ran during the routed request. -/
def routeExtractorInvoked : RouteResult AtsResult → Bool
  | .rejected _ => false
  | .handled r => r.extractorInvoked

/-- Whether the Generation Client ran during the routed request. -/
def routeGenInvoked : RouteResult AtsResult → Bool
  | .rejected _ => false
  | .handled r => r.genInvoked

/-- C1 (counterexample): the claim says the strict branch returns the
parsed `findings` whenever it is PRESENT, substituting the empty sequence
only when it is ABSENT. But the code computes `parsedResponse.findings || []`,
which also replaces any present-but-falsy `findings`. Here the parsed
value has `findings` present and equal to `null`, `score` truthy and
`suggestions` an array, yet the response's `findings` is not that parsed
value. -/
theorem C1_ats_strict_counterexample :
    truthyOpt ((Json.obj [("score", Json.num 82), ("findings", Json.null),
      ("suggestions", Json.arr [])]).getField "score") = true ∧
    isArrayOpt ((Json.obj [("score", Json.num 82), ("findings", Json.null),
      ("suggestions", Json.arr [])]).getField "suggestions") = true ∧
    (Json.obj [("score", Json.num 82), ("findings", Json.null),
      ("suggestions", Json.arr [])]).getField "findings" = some Json.null ∧
    (atsNormalize (some (Json.obj [("score", Json.num 82), ("findings", Json.null),
      ("suggestions", Json.arr [])])) "").findings ≠ Json.null := by
  refine ⟨rfl, rfl, rfl, fun h => ?_⟩
  exact nomatch h

/-- C1 (amended): when the generation result parses to `j` with a truthy
`score` and an array-typed `suggestions`, the ATS strict branch returns
exactly the parsed `score` and `suggestions`, and the parsed `findings`
when that field is truthy — the empty sequence being substituted for an
absent or otherwise falsy `findings`. No fallback content appears. -/
theorem C1_ats_strict_amended (j : Json) (raw : String)
    (h1 : truthyOpt (j.getField "score") = true)
    (h2 : isArrayOpt (j.getField "suggestions") = true) :
    atsNormalize (some j) raw =
      { score := (j.getField "score").getD Json.null
        findings := if truthyOpt (j.getField "findings")
          then (j.getField "findings").getD Json.null else Json.arr []
        suggestions := (j.getField "suggestions").getD Json.null } := by
  simp [atsNormalize, h1, h2, jsOr]

/-- Witness for C1 (amended), at the spec's own scenario input. -/
theorem C1_ats_strict_amended_witness :
    atsNormalize (some (Json.obj [("score", Json.num 82),
        ("findings", Json.arr [Json.str "Good keyword density"]),
        ("suggestions", Json.arr [Json.str "Add metrics"])])) "" =
      { score := Json.num 82
        findings := Json.arr [Json.str "Good keyword density"]
        suggestions := Json.arr [Json.str "Add metrics"] } :=
  (C1_ats_strict_amended (Json.obj [("score", Json.num 82),
      ("findings", Json.arr [Json.str "Good keyword density"]),
      ("suggestions", Json.arr [Json.str "Add metrics"])]) "" rfl rfl).trans rfl

/-- C2: whenever the generation result does not parse (`none`), or parses
to a value lacking a truthy `score` or an array-typed `suggestions`, the
ATS normalizer returns the fallback response: `score` is the first
decimal-digit run of the raw text parsed as an integer (70 when the text
has no digit), `findings` is exactly ["Analysis completed"] and
`suggestions` is exactly ["Consider reviewing the resume format"]. The
normalizer is a total function, so no parse exception escapes it. -/
theorem C2_ats_fallback (parsed : Option Json) (raw : String)
    (h : ∀ j, parsed = some j →
      (truthyOpt (j.getField "score") && isArrayOpt (j.getField "suggestions")) = false) :
    atsNormalize parsed raw =
      { score := Json.num (fallbackScore raw)
        findings := Json.arr [Json.str "Analysis completed"]
        suggestions := Json.arr [Json.str "Consider reviewing the resume format"] } := by
  cases parsed with
  | none => rfl
  | some j =>
      have hj := h j rfl
      simp [atsNormalize, hj, atsFallback]

/-- Witness for C2, at the spec's own scenario: a non-JSON sentence whose
first digit run is 75. -/
theorem C2_ats_fallback_witness :
    atsNormalize none "Your resume scores around 75 out of 100." =
      { score := Json.num 75
        findings := Json.arr [Json.str "Analysis completed"]
        suggestions := Json.arr [Json.str "Consider reviewing the resume format"] } :=
  (C2_ats_fallback none "Your resume scores around 75 out of 100."
    (fun _ hj => nomatch hj)).trans rfl

/-- The source's newline-run collapse agrees with the spec-worded one:
both send each maximal run of carriage returns and newlines to a single
newline. -/
theorem collapseChars_eq_specNormalizeChars (l : List Char) :
    collapseChars l = specNormalizeChars false l := by
  induction l with
  | nil => rfl
  | cons c cs ih =>
      cases cs with
      | nil =>
          cases hc : isNlChar c <;> simp [collapseChars, specNormalizeChars, hc]
      | cons c2 rest =>
          cases hc : isNlChar c <;> cases hc2 : isNlChar c2 <;>
            simp only [collapseChars, specNormalizeChars, hc, hc2, ih, if_true, if_false,
              Bool.false_eq_true, Bool.true_eq_false, ite_true, ite_false, reduceIte]

/-- C9: the strict branch forwards the parsed `score` with no type or
range validation beyond truthiness — a string score and a score above
100 are both returned verbatim. -/
theorem C9_score_unvalidated :
    (atsNormalize (some (Json.obj [("score", Json.str "ninety"),
        ("suggestions", Json.arr [])])) "").score = Json.str "ninety" ∧
    (atsNormalize (some (Json.obj [("score", Json.num 150),
        ("suggestions", Json.arr [])])) "").score = Json.num 150 :=
  ⟨rfl, rfl⟩

/-- C3 (counterexample): the claim says the cover-letter fallback uses
the newline-run-normalized raw text VERBATIM as `coverLetter`, but the
code additionally calls `.trim()` on it (src/app.js:246,325): on a raw
text ending in a newline the two differ. -/
theorem C3_cover_fallback_counterexample :
    specNormalizeNewlines "Dear Team,\n\nI am excited.\n" = "Dear Team,\nI am excited.\n" ∧
    coverNormalize none "Dear Team,\n\nI am excited.\n" =
      CoverBody.fallback "Dear Team,\nI am excited."
        ["Letter generated based on your resume and job description"]
        ["Consider reviewing and personalizing the generated content"] ∧
    coverNormalize none "Dear Team,\n\nI am excited.\n" ≠
      CoverBody.fallback (specNormalizeNewlines "Dear Team,\n\nI am excited.\n")
        ["Letter generated based on your resume and job description"]
        ["Consider reviewing and personalizing the generated content"] := by
  refine ⟨rfl, rfl, fun h => ?_⟩
  have e : coverNormalize none "Dear Team,\n\nI am excited.\n" =
      CoverBody.fallback "Dear Team,\nI am excited."
        ["Letter generated based on your resume and job description"]
        ["Consider reviewing and personalizing the generated content"] := rfl
  rw [e] at h
  injection h with h1 h2 h3
  exact absurd h1 (by decide)

/-- C3 (amended): for every generation result that does not parse, or
parses without a truthy `coverLetter`, both cover-letter fallbacks return
the raw text with every run of carriage returns and newlines normalized
to a single newline AND trimmed of leading and trailing whitespace as
`coverLetter`, together with the fixed single-element `highlights` and
`suggestedImprovements` arrays describing the best-effort fallback. -/
theorem C3_cover_fallback_amended (parsed : Option Json) (raw : String)
    (h : ∀ j, parsed = some j → truthyOpt (j.getField "coverLetter") = false) :
    coverNormalize parsed raw =
      CoverBody.fallback (jsTrim (specNormalizeNewlines raw))
        ["Letter generated based on your resume and job description"]
        ["Consider reviewing and personalizing the generated content"] ∧
    textNormalize parsed raw =
      TextBody.okFallback (jsTrim (specNormalizeNewlines raw))
        ["Letter generated based on your background and job description"]
        ["Consider reviewing and personalizing the generated content"] := by
  have key : coverLetterFallbackText raw = jsTrim (specNormalizeNewlines raw) := by
    unfold coverLetterFallbackText collapseCrLf specNormalizeNewlines
    rw [collapseChars_eq_specNormalizeChars]
  cases parsed with
  | none => exact ⟨by simp [coverNormalize, key], by simp [textNormalize, key]⟩
  | some j =>
      have hj := h j rfl
      exact ⟨by simp [coverNormalize, hj, key], by simp [textNormalize, hj, key]⟩

/-- Witness for C3 (amended), on a concrete raw letter with CRLF runs. -/
theorem C3_cover_fallback_amended_witness :
    coverNormalize none "Dear Team,\r\n\r\nI am excited.\n" =
      CoverBody.fallback "Dear Team,\nI am excited."
        ["Letter generated based on your resume and job description"]
        ["Consider reviewing and personalizing the generated content"] ∧
    textNormalize none "Dear Team,\r\n\r\nI am excited.\n" =
      TextBody.okFallback "Dear Team,\nI am excited."
        ["Letter generated based on your background and job description"]
        ["Consider reviewing and personalizing the generated content"] := by
  have h := C3_cover_fallback_amended none "Dear Team,\r\n\r\nI am excited.\n"
    (fun _ hj => nomatch hj)
  exact ⟨h.1.trans rfl, h.2.trans rfl⟩

/-- C4 (code bug): on `/api/generate-cover-letter`, `filePath` is
assigned only after the job-description check (src/app.js:190-194), so a
request with a persisted upload but no `jobDescription` throws while
`filePath` is still `null`: the `finally` block skips `cleanupFile` and
the uploaded file stays on disk, against the spec's guaranteed-release
contract. Evaluation of the handler at that failing input. -/
theorem C4_cover_cleanup_leak :
    (coverHandler
      { file := some "uploads/1-resume.pdf", jobDescription := none,
        extractResult := Except.ok (some "resume text"), genResult := Except.ok "letter",
        parseResult := none, devMode := false }
      { files := ["uploads/1-resume.pdf"], failing := [] }).cleanupInvoked = false ∧
    (coverHandler
      { file := some "uploads/1-resume.pdf", jobDescription := none,
        extractResult := Except.ok (some "resume text"), genResult := Except.ok "letter",
        parseResult := none, devMode := false }
      { files := ["uploads/1-resume.pdf"], failing := [] }).finalFs.files
      = ["uploads/1-resume.pdf"] ∧
    (coverHandler
      { file := some "uploads/1-resume.pdf", jobDescription := none,
        extractResult := Except.ok (some "resume text"), genResult := Except.ok "letter",
        parseResult := none, devMode := false }
      { files := ["uploads/1-resume.pdf"], failing := [] }).body
      = CoverBody.err "No job description provided" false :=
  ⟨rfl, rfl, rfl⟩

/-- C5: on `/api/generate-cover-letter/text`, a falsy `jobDescription` or
`skillsExperience` yields HTTP 400 with exactly
`success:false, error:"Both job description and skills/experience are required"`,
and the Generation Client is never invoked. -/
theorem C5_text_validation (env : TextEnv)
    (h : jsTruthyStr env.jobDescription = false ∨ jsTruthyStr env.skillsExperience = false) :
    textHandler env =
      { status := 400
        body := TextBody.err "Both job description and skills/experience are required" none
        genInvoked := false } := by
  have hc : (!jsTruthyStr env.jobDescription || !jsTruthyStr env.skillsExperience) = true := by
    rcases h with h | h <;> simp [h]
  simp [textHandler, hc]

/-- Witness for C5: missing `skillsExperience`. -/
theorem C5_text_validation_witness :
    textHandler
      { jobDescription := some "Build APIs with Node", skillsExperience := none,
        genResult := Except.ok "", parseResult := none, devMode := false } =
      { status := 400
        body := TextBody.err "Both job description and skills/experience are required" none
        genInvoked := false } :=
  C5_text_validation _ (Or.inr rfl)

/-- C6: when the extracted PDF text is absent, empty, or whitespace-only,
the ATS route fails with exactly "Could not extract text from PDF" and
the cover-letter upload route also fails, in both cases before the
Generation Client is invoked. -/
theorem C6_empty_text_validation (env : AtsEnv) (cenv : CoverEnv) (fs : FS)
    (p q : String) (t u : Option String)
    (h1 : env.file = some p) (h2 : env.extractResult = Except.ok t)
    (h3 : emptyText t = true)
    (h4 : cenv.file = some q) (h5 : jsTruthyStr cenv.jobDescription = true)
    (h6 : cenv.extractResult = Except.ok u) (h7 : emptyText u = true) :
    (atsHandler env fs).body = AtsBody.err "Could not extract text from PDF" env.devMode ∧
    (atsHandler env fs).status = 500 ∧
    (atsHandler env fs).genInvoked = false ∧
    (coverHandler cenv fs).body
      = CoverBody.err "Could not extract text from resume PDF" cenv.devMode ∧
    (coverHandler cenv fs).genInvoked = false := by
  refine ⟨?_, ?_, ?_, ?_, ?_⟩ <;>
    simp [atsHandler, coverHandler, h1, h2, h3, h4, h5, h6, h7]

/-- Witness for C6: whitespace-only extracted text on both routes. -/
theorem C6_empty_text_validation_witness :
    (atsHandler
      { file := some "uploads/1-r.pdf", extractResult := Except.ok (some "  \n "),
        genResult := Except.ok "", parseResult := none, devMode := false }
      { files := ["uploads/1-r.pdf", "uploads/2-r.pdf"], failing := [] }).body
      = AtsBody.err "Could not extract text from PDF" false ∧
    (coverHandler
      { file := some "uploads/2-r.pdf", jobDescription := some "Build APIs",
        extractResult := Except.ok none, genResult := Except.ok "", parseResult := none,
        devMode := false }
      { files := ["uploads/1-r.pdf", "uploads/2-r.pdf"], failing := [] }).genInvoked = false := by
  have h := C6_empty_text_validation
    { file := some "uploads/1-r.pdf", extractResult := Except.ok (some "  \n "),
      genResult := Except.ok "", parseResult := none, devMode := false }
    { file := some "uploads/2-r.pdf", jobDescription := some "Build APIs",
      extractResult := Except.ok none, genResult := Except.ok "", parseResult := none,
      devMode := false }
    { files := ["uploads/1-r.pdf", "uploads/2-r.pdf"], failing := [] }
    "uploads/1-r.pdf" "uploads/2-r.pdf" (some "  \n ") none
    rfl rfl rfl rfl rfl rfl rfl
  exact ⟨h.1, h.2.2.2.2⟩

/-- C7 (counterexample): the claim says every ValidationError is
surfaced with a 500-class status and an error message drawn from the
originating failure. But on `/api/generate-cover-letter/text` a missing
`skillsExperience` is a 400, and a generation failure is surfaced with
the FIXED message "Failed to generate cover letter" rather than the
collaborator's own message (src/app.js:281-286 and 342-347). -/
theorem C7_uniform_error_counterexample :
    (textHandler
      { jobDescription := some "Build APIs", skillsExperience := none,
        genResult := Except.ok "", parseResult := none, devMode := false }).status = 400 ∧
    (textHandler
      { jobDescription := some "Build APIs", skillsExperience := some "5 years of Node",
        genResult := Except.error "quota exceeded", parseResult := none,
        devMode := false }).body
      = TextBody.err "Failed to generate cover letter" none ∧
    "Failed to generate cover letter" ≠ "quota exceeded" :=
  ⟨rfl, rfl, by decide⟩

/-- C7 (amended): errors raised inside the two upload-route handlers are
surfaced uniformly as an error body with HTTP 500 and with the stack
detail included exactly in development mode, the message being the
originating failure's own (shown for a generation failure with a
nonempty message); the text-only route instead returns 400 with a fixed
message for its field validation and, for later failures, 500 with the
fixed message "Failed to generate cover letter" and the originating
message as `details` only in development mode. MIME-type and size
rejections never reach these handlers (they are middleware rejections,
see the C8 theorem). -/
theorem C7_error_surfacing_amended (env : AtsEnv) (cenv : CoverEnv) (tenv : TextEnv)
    (fs : FS) (m : String) :
    (∀ m2 d, (atsHandler env fs).body = AtsBody.err m2 d →
      (atsHandler env fs).status = 500 ∧ d = env.devMode) ∧
    (∀ m2 d, (coverHandler cenv fs).body = CoverBody.err m2 d →
      (coverHandler cenv fs).status = 500 ∧ d = cenv.devMode) ∧
    (∀ p t, env.file = some p → env.extractResult = Except.ok t → emptyText t = false →
      env.genResult = Except.error m → m ≠ "" →
      (atsHandler env fs).body = AtsBody.err m env.devMode) ∧
    (jsTruthyStr tenv.jobDescription = false ∨ jsTruthyStr tenv.skillsExperience = false →
      (textHandler tenv).status = 400 ∧
      (textHandler tenv).body
        = TextBody.err "Both job description and skills/experience are required" none) ∧
    (jsTruthyStr tenv.jobDescription = true → jsTruthyStr tenv.skillsExperience = true →
      tenv.genResult = Except.error m →
      (textHandler tenv).status = 500 ∧
      (textHandler tenv).body = TextBody.err "Failed to generate cover letter"
        (if tenv.devMode then some m else none)) := by
  refine ⟨?_, ?_, ?_, ?_, ?_⟩
  · intro m2 d h
    cases hf : env.file with
    | none =>
        simp [atsHandler, hf] at h ⊢
        exact h.2.symm
    | some path =>
        cases hex : env.extractResult with
        | error e =>
            simp [atsHandler, hf, hex] at h ⊢
            exact h.2.symm
        | ok t =>
            by_cases het : emptyText t = true
            · simp [atsHandler, hf, hex, het] at h ⊢
              exact h.2.symm
            · cases hgen : env.genResult with
              | error m3 =>
                  simp [atsHandler, hf, hex, het, hgen] at h ⊢
                  exact h.2.symm
              | ok raw => simp [atsHandler, hf, hex, het, hgen] at h
  · intro m2 d h
    cases hf : cenv.file with
    | none =>
        simp [coverHandler, hf] at h ⊢
        exact h.2.symm
    | some path =>
        by_cases hjd : jsTruthyStr cenv.jobDescription = true
        · cases hex : cenv.extractResult with
          | error e =>
              simp [coverHandler, hf, hjd, hex] at h ⊢
              exact h.2.symm
          | ok t =>
              by_cases het : emptyText t = true
              · simp [coverHandler, hf, hjd, hex, het] at h ⊢
                exact h.2.symm
              · cases hgen : cenv.genResult with
                | error m3 =>
                    simp [coverHandler, hf, hjd, hex, het, hgen] at h ⊢
                    exact h.2.symm
                | ok raw =>
                    simp [coverHandler, hf, hjd, hex, het, hgen] at h
                    cases hp : cenv.parseResult with
                    | none => simp [coverNormalize, hp] at h
                    | some j =>
                        by_cases hcl : truthyOpt (j.getField "coverLetter") = true <;>
                          simp [coverNormalize, hp, hcl] at h
        · simp [coverHandler, hf, hjd] at h ⊢
          exact h.2.symm
  · intro p t hf hex het hgen hm
    simp [atsHandler, hf, hex, het, hgen, defaultMsg, hm]
  · intro h
    have hc : (!jsTruthyStr tenv.jobDescription || !jsTruthyStr tenv.skillsExperience) = true := by
      rcases h with h | h <;> simp [h]
    simp [textHandler, hc]
  · intro hjd hse hgen
    simp [textHandler, hjd, hse, hgen]

/-- Witness for C7 (amended): a generation failure with message
"quota exceeded" in development mode is surfaced verbatim on the ATS
route, and the text route rejects a missing `skillsExperience` with 400. -/
theorem C7_error_surfacing_amended_witness :
    (atsHandler
      { file := some "uploads/1-r.pdf", extractResult := Except.ok (some "resume text"),
        genResult := Except.error "quota exceeded", parseResult := none, devMode := true }
      { files := ["uploads/1-r.pdf"], failing := [] }).body
      = AtsBody.err "quota exceeded" true ∧
    (textHandler
      { jobDescription := some "Build APIs", skillsExperience := none,
        genResult := Except.ok "", parseResult := none, devMode := true }).status = 400 := by
  have h := C7_error_surfacing_amended
    { file := some "uploads/1-r.pdf", extractResult := Except.ok (some "resume text"),
      genResult := Except.error "quota exceeded", parseResult := none, devMode := true }
    { file := none, jobDescription := none, extractResult := Except.ok none,
      genResult := Except.ok "", parseResult := none, devMode := false }
    { jobDescription := some "Build APIs", skillsExperience := none,
      genResult := Except.ok "", parseResult := none, devMode := true }
    { files := ["uploads/1-r.pdf"], failing := [] } "quota exceeded"
  exact ⟨h.2.2.1 "uploads/1-r.pdf" (some "resume text") rfl rfl rfl rfl (by decide),
    (h.2.2.2.1 (Or.inr rfl)).1⟩

/-- C8: an upload whose declared MIME type is not `application/pdf`, or
whose size exceeds 5 MiB, is rejected by the upload middleware before
the route handler runs: neither the Text Extractor nor the Generation
Client is invoked for that request. -/
theorem C8_reject_before_pipeline (f : UploadedFile) (env : AtsEnv) (fs : FS)
    (h : f.mimetype ≠ "application/pdf" ∨ f.size > fileSizeLimit) :
    routeExtractorInvoked (atsRoute (some f) env fs) = false ∧
    routeGenInvoked (atsRoute (some f) env fs) = false ∧
    ∃ e, atsRoute (some f) env fs = RouteResult.rejected e := by
  have hrej : ∃ e, uploadSingle (some f) = Except.error e := by
    rcases h with h | h
    · exact ⟨"Only PDF files are allowed", by simp [uploadSingle, fileFilter, h]⟩
    · by_cases hm : f.mimetype = "application/pdf"
      · exact ⟨"File too large", by simp [uploadSingle, fileFilter, hm, h]⟩
      · exact ⟨"Only PDF files are allowed", by simp [uploadSingle, fileFilter, hm]⟩
  obtain ⟨e, he⟩ := hrej
  refine ⟨?_, ?_, ⟨e, ?_⟩⟩ <;> simp [atsRoute, he, routeExtractorInvoked, routeGenInvoked]

/-- Witness for C8: a 6 MiB PDF is rejected with no extractor or
generation call. -/
theorem C8_reject_before_pipeline_witness :
    routeExtractorInvoked (atsRoute
      (some { originalname := "resume.pdf", mimetype := "application/pdf",
              size := 6 * 1024 * 1024 })
      { file := some "uploads/1-r.pdf", extractResult := Except.ok (some "text"),
        genResult := Except.ok "", parseResult := none, devMode := false }
      { files := [], failing := [] }) = false ∧
    routeGenInvoked (atsRoute
      (some { originalname := "resume.pdf", mimetype := "application/pdf",
              size := 6 * 1024 * 1024 })
      { file := some "uploads/1-r.pdf", extractResult := Except.ok (some "text"),
        genResult := Except.ok "", parseResult := none, devMode := false }
      { files := [], failing := [] }) = false := by
  have h := C8_reject_before_pipeline
    { originalname := "resume.pdf", mimetype := "application/pdf", size := 6 * 1024 * 1024 }
    { file := some "uploads/1-r.pdf", extractResult := Except.ok (some "text"),
      genResult := Except.ok "", parseResult := none, devMode := false }
    { files := [], failing := [] }
    (Or.inr (by decide))
  exact ⟨h.1, h.2.1⟩

/-- C10: `cleanupFile` is total (every deletion error is caught, so it
always returns), a no-op when the file does not exist, and idempotent on
the filesystem: a second invocation on the same path changes nothing,
and even on a path whose deletion throws it returns with the filesystem
unchanged and the error merely logged. -/
theorem C10_cleanupFile_props (fs : FS) (p : String) :
    (fs.files.contains p = false → cleanupFile fs p = (fs, false)) ∧
    ((cleanupFile (cleanupFile fs p).fst p).fst = (cleanupFile fs p).fst) ∧
    (fs.failing.contains p = true → (cleanupFile fs p).fst = fs) := by
  refine ⟨?_, ?_, ?_⟩
  · intro h
    have h2 : p ∉ fs.files := by simpa using h
    simp [cleanupFile, existsSync, h2]
  · by_cases hex : p ∈ fs.files
    · by_cases hfail : p ∈ fs.failing
      · simp [cleanupFile, existsSync, unlinkSync, hex, hfail]
      · have hafter : p ∉ List.filter (fun x => !decide (x = p)) fs.files := by
          simp [List.mem_filter]
        simp [cleanupFile, existsSync, unlinkSync, hex, hfail, hafter]
    · simp [cleanupFile, existsSync, hex]
  · intro hfail
    have hf2 : p ∈ fs.failing := by simpa using hfail
    by_cases hex : p ∈ fs.files
    · simp [cleanupFile, existsSync, unlinkSync, hex, hf2]
    · simp [cleanupFile, existsSync, hex]

/-- Witness for C10: deleting a missing file is a no-op, and a repeated
deletion leaves the filesystem where the first left it. -/
theorem C10_cleanupFile_props_witness :
    cleanupFile { files := ["uploads/a.pdf"], failing := [] } "uploads/b.pdf"
      = ({ files := ["uploads/a.pdf"], failing := [] }, false) ∧
    (cleanupFile (cleanupFile { files := ["uploads/a.pdf"], failing := [] }
        "uploads/a.pdf").fst "uploads/a.pdf").fst
      = (cleanupFile { files := ["uploads/a.pdf"], failing := [] } "uploads/a.pdf").fst :=
  ⟨(C10_cleanupFile_props { files := ["uploads/a.pdf"], failing := [] } "uploads/b.pdf").1 rfl,
   (C10_cleanupFile_props { files := ["uploads/a.pdf"], failing := [] } "uploads/a.pdf").2.1⟩

